import Mathlib

/-!
Verification of the AetherWatch data-acquisition and alerting core.

This file gives a shallow embedding, in Lean 4, of the parts of the
AetherWatch source that the specification's testable claims are about:

* `data_sources/aviation.py` — OpenSky state-vector parsing, the adsb.fi
  fallback parser, the mock-aircraft generator, the fetch fallback chain,
  the `Aircraft` record class and `check_aviation_anomalies`;
* `utils/alerts.py` — the bounded in-memory alert log;
* `vision/detector.py` — `YOLODetector.detect` and its passthrough path;
* `data_sources/satellite.py` — `fetch_region_image` output sizing;
* `data_sources/cameras.py` — `_fetch_mjpeg_frame` JPEG frame extraction.

Machine floats of the Python source are embedded as exact rationals; the
CPython `round` builtin (round-half-to-even) and `int` truncation are
modelled explicitly.  External effects (HTTP responses, the random number
generator, wall-clock time, transcendental float functions, text
rasterisation) are passed in as explicit parameters, so that every
definition is executable and every code path is a pure function of its
inputs.
-/

namespace AetherWatch

/-- CPython `round(x)`: round a rational to the nearest integer,
ties going to the even integer. -/
def pyRound (x : ℚ) : ℤ :=
  let f : ℤ := ⌊x⌋
  let frac : ℚ := x - (f : ℚ)
  if frac < 1/2 then f
  else if 1/2 < frac then f + 1
  else if f % 2 = 0 then f else f + 1

/-- CPython `round(x, d)`: round to `d` decimal digits (half-to-even). -/
def pyRoundTo (d : Nat) (x : ℚ) : ℚ :=
  ((pyRound (x * (10 : ℚ) ^ d) : ℤ) : ℚ) / (10 : ℚ) ^ d

/-- CPython `int(x)` on a float: truncation toward zero. -/
def pyTrunc (x : ℚ) : ℤ :=
  if 0 ≤ x then ⌊x⌋ else -⌊-x⌋

/-- Python `x or default` where `x` is a possibly-absent float:
`None`, and the float `0.0`, are falsy. -/
def pyOrQ (v : Option ℚ) (dflt : ℚ) : ℚ :=
  match v with
  | some x => if x = 0 then dflt else x
  | none => dflt

/-- Python `x or default` where `x` is a possibly-absent string:
`None` and the empty string are falsy. -/
def pyOrS (v : Option String) (dflt : String) : String :=
  match v with
  | some s => if s = "" then dflt else s
  | none => dflt

/-- Python `x or default` where `x` is a possibly-absent integer. -/
def pyOrZ (v : Option ℤ) (dflt : ℤ) : ℤ :=
  match v with
  | some n => if n = 0 then dflt else n
  | none => dflt

/-- Python `s.strip()`: remove leading and trailing whitespace. -/
def pyStrip (s : String) : String :=
  String.mk (((s.data.dropWhile Char.isWhitespace).reverse.dropWhile
    Char.isWhitespace).reverse)

/-- Python float modulo: `a % m = a - m * floor(a / m)`. -/
def pyModQ (a m : ℚ) : ℚ := a - m * (⌊a / m⌋ : ℤ)

/-- Python `f"{n:04d}"` for a non-negative squawk draw. -/
def pad4 (n : Nat) : String :=
  let s := toString n
  String.mk (List.replicate (4 - s.length) '0') ++ s

/-- Python `f"{n:06x}"`: six-digit zero-padded lowercase hex. -/
def icaoHex (n : Nat) : String :=
  let s := Nat.toDigits 16 n
  String.mk (List.replicate (6 - s.length) '0' ++ s)

/-! ## Aviation: `data_sources/aviation.py` -/

/-- One OpenSky state vector (`state` in `_parse_opensky_state`), a
positional JSON array; `len` is the length of that array and the other
fields are its entries at the indices the parser reads (absent JSON
values are `none`).  Index 0 is `icao24`, 1 `callsign`, 2
`origin_country`, 4 `last_contact`, 5 longitude, 6 latitude, 7
barometric altitude, 8 `on_ground`, 9 velocity (m/s), 10 true track, 11
vertical rate (m/s), 13 geometric altitude, 14 `squawk`. -/
structure StateVec where
  len : Nat
  icao24 : String
  callsign : Option String
  originCountry : Option String
  lastContact : Option ℤ
  lon : Option ℚ
  lat : Option ℚ
  baroAltitude : Option ℚ
  onGround : Option Bool
  velocity : Option ℚ
  trueTrack : Option ℚ
  verticalRate : Option ℚ
  geoAltitude : Option ℚ
  squawk : Option String
deriving Repr, DecidableEq

/-- The aircraft dict built by the parsers in `aviation.py`.  The
`velocity_ms` and `aircraft_type` keys are produced by only some of the
parsers, hence `Option` (absent key = `none`); every other key is
present in every producing code path. -/
structure AircraftDict where
  icao24 : String
  callsign : String
  origin_country : String
  latitude : ℚ
  longitude : ℚ
  altitude_m : ℚ
  altitude_ft : ℚ
  velocity_ms : Option ℚ
  velocity_kts : ℚ
  heading : ℚ
  vertical_rate : ℚ
  on_ground : Bool
  squawk : String
  aircraft_type : Option String
  last_contact : ℤ
  is_mock : Bool
deriving Repr, DecidableEq

/-- The body of `_parse_opensky_state` for a non-null state vector:
length check, position-presence check, then the parsed dict. -/
def parseOpenskyStateVec (now : ℤ) (s : StateVec) : Option AircraftDict :=
  if s.len < 17 then none
  else
    match s.lon, s.lat with
      | some lon, some lat =>
        let altitude_m := pyOrQ s.baroAltitude (pyOrQ s.geoAltitude 0)
        let altitude_ft := pyRound (altitude_m * (3.28084 : ℚ))
        let velocity_ms := pyOrQ s.velocity 0
        let velocity_kts := pyRound (velocity_ms * (1.94384 : ℚ))
        some
          { icao24 := s.icao24
            callsign := pyOrS (some (pyStrip (pyOrS s.callsign ""))) "UNKNOWN"
            origin_country := pyOrS s.originCountry "Unknown"
            latitude := pyRoundTo 4 lat
            longitude := pyRoundTo 4 lon
            altitude_m := (pyRound altitude_m : ℚ)
            altitude_ft := (altitude_ft : ℚ)
            velocity_ms := some (pyRoundTo 1 velocity_ms)
            velocity_kts := (velocity_kts : ℚ)
            heading := pyRoundTo 1 (pyOrQ s.trueTrack 0)
            vertical_rate := pyRoundTo 1 (pyOrQ s.verticalRate 0)
            on_ground := s.onGround.getD false
            squawk := pyOrS s.squawk "----"
            aircraft_type := none
            last_contact := pyOrZ s.lastContact now
            is_mock := false }
      | _, _ => none

/-- `_parse_opensky_state(state)` (aviation.py lines 32-63); `now` is
`int(time.time())`. Returns `none` where the source returns `None`. -/
def parseOpenskyState (now : ℤ) (state : Option StateVec) : Option AircraftDict :=
  match state with
  | none => none
  | some s => parseOpenskyStateVec now s

/-- The `alt_baro` field of an adsb.fi aircraft record: a number, or the
JSON string `"ground"` for on-ground aircraft. -/
inductive AdsbAlt where
  | num (q : ℚ)
  | ground
deriving Repr, DecidableEq

/-- One record of the adsb.fi `aircraft` array, with the fields the
fallback parser reads (absent key = `none`). -/
structure AdsbRec where
  hex : Option String
  flight : Option String
  r : Option String
  lat : Option ℚ
  lon : Option ℚ
  alt_baro : Option AdsbAlt
  gs : Option ℚ
  track : Option ℚ
  baro_rate : Option ℚ
  squawk : Option String
  t : Option String
deriving Repr, DecidableEq

/-- Python truthiness test `not ac.get(k)` for a numeric field: true when
the key is absent or its value is exactly 0. -/
def adsbFalsy (v : Option ℚ) : Bool := v.getD 0 = 0

/-- `float(ac.get("alt_baro", 0) or 0)`: the string `"ground"` is truthy
and not a float literal, so it raises `ValueError`. -/
def adsbAltFloat (v : Option AdsbAlt) : Except String ℚ :=
  match v with
  | none => .ok 0
  | some (.num q) => .ok q
  | some .ground => .error "could not convert string to float"

/-- The body of the adsb.fi fallback loop (aviation.py lines 174-193)
for one record: `.ok none` models `continue`, `.error` a raised
exception that aborts the whole fallback. -/
def parseAdsbRec (ac : AdsbRec) : Except String (Option AircraftDict) :=
  if adsbFalsy ac.lat ∨ adsbFalsy ac.lon then .ok none
  else
    match adsbAltFloat ac.alt_baro with
    | .error e => .error e
    | .ok altFt =>
      .ok (some
        { icao24 := ac.hex.getD ""
          callsign := pyStrip (ac.flight.getD "UNKNOWN")
          origin_country := ac.r.getD ""
          latitude := ac.lat.getD 0
          longitude := ac.lon.getD 0
          altitude_ft := altFt
          altitude_m := altFt * (0.3048 : ℚ)
          velocity_ms := none
          velocity_kts := pyOrQ ac.gs 0
          heading := pyOrQ ac.track 0
          vertical_rate := pyOrQ ac.baro_rate 0
          on_ground := ac.alt_baro = some .ground
          squawk := ac.squawk.getD "----"
          aircraft_type := some (ac.t.getD "")
          last_contact := 0
          is_mock := false })

/-- The adsb.fi fallback loop over `data.get("aircraft", [])[:500]`:
sequential, one appended dict per record passing the falsy check, a
raised exception discards everything built so far. -/
def parseAdsbList : List AdsbRec → Except String (List AircraftDict)
  | [] => .ok []
  | ac :: rest =>
    match parseAdsbRec ac with
    | .error e => .error e
    | .ok none => parseAdsbList rest
    | .ok (some d) =>
      match parseAdsbList rest with
      | .error e => .error e
      | .ok ds => .ok (d :: ds)

/-- The adsb.fi HTTP response: status code and decoded `aircraft` array. -/
structure AdsbResp where
  status : Nat
  aircraft : List AdsbRec

/-- The adsb.fi fallback block of `fetch_opensky` (lines 163-198):
`some` = `return aircraft`, `none` = fall through to the mock
generator (non-200 status, a swallowed exception, or an empty parse). -/
def adsbFallbackResult (resp : Except String AdsbResp) : Option (List AircraftDict) :=
  match resp with
  | .error _ => none
  | .ok r =>
    if r.status = 200 then
      match parseAdsbList (r.aircraft.take 500) with
      | .error _ => none
      | .ok as_ => if as_ = [] then none else some as_
    else none

/-! ### Mock aircraft generator: `utils/mock_data.py` -/

/-- `_AIRPORTS`: (ICAO code, latitude, longitude, city). -/
def mockAirports : List (String × ℚ × ℚ × String) :=
  [("KJFK", 40.6413, -73.7781, "New York"),
   ("KLAX", 33.9416, -118.4085, "Los Angeles"),
   ("KORD", 41.9742, -87.9073, "Chicago"),
   ("KDEN", 39.8561, -104.6737, "Denver"),
   ("KMIA", 25.7959, -80.2870, "Miami"),
   ("EGLL", 51.4700, -0.4543, "London"),
   ("LFPG", 49.0097, 2.5479, "Paris"),
   ("EDDF", 50.0379, 8.5622, "Frankfurt"),
   ("RJTT", 35.5533, 139.7811, "Tokyo"),
   ("OMDB", 25.2528, 55.3644, "Dubai"),
   ("YSSY", -33.9461, 151.1772, "Sydney"),
   ("SBGR", -23.4356, -46.4731, "São Paulo"),
   ("FAOR", -26.1392, 28.2460, "Johannesburg"),
   ("VHHH", 22.3080, 113.9185, "Hong Kong"),
   ("WSSS", 1.3644, 103.9915, "Singapore")]

/-- `_AIRCRAFT_TYPES`. -/
def mockTypes : List String :=
  ["B738", "B739", "B77W", "B787", "B748",
   "A320", "A321", "A330", "A350", "A380",
   "E190", "CRJ9", "DH8D", "C172", "GLF6"]

/-- `_AIRLINES`. -/
def mockAirlines : List (String × String) :=
  [("UAL", "United Airlines"), ("DAL", "Delta Air Lines"),
   ("AAL", "American Airlines"), ("SWA", "Southwest Airlines"),
   ("BAW", "British Airways"), ("DLH", "Lufthansa"),
   ("AFR", "Air France"), ("UAE", "Emirates"),
   ("QFA", "Qantas"), ("SIA", "Singapore Airlines"),
   ("CPA", "Cathay Pacific"), ("ANA", "All Nippon Airways")]

/-- `_COUNTRIES`. -/
def mockCountries : List String :=
  ["United States", "United Kingdom", "Germany", "France",
   "Japan", "Australia", "UAE", "Singapore", "Canada", "Brazil"]

/-- `random.choice(l)` with the random index supplied by the oracle. -/
def chooseD {α : Type} (dflt : α) (l : List α) (i : Nat) : α :=
  l.getD (i % l.length) dflt

/-- The outputs of the random draws one iteration of
`generate_mock_aircraft` performs, supplied as an oracle. -/
structure MockDraw where
  originIdx : Nat
  destIdx : Nat
  t : ℚ
  gaussLat : ℚ
  gaussLon : ℚ
  airlineIdx : Nat
  callsignNum : Nat
  countryIdx : Nat
  altitude : ℤ
  velocity : ℤ
  verticalRate : ℤ
  typeIdx : Nat
  squawkNum : Nat
  icaoNum : Nat

/-- `generate_mock_aircraft(count)` (mock_data.py lines 69-113):
`draws i` gives the random values of iteration `i`, `atan2deg` is
`math.degrees(math.atan2(·, ·))`, `nowTs` the current epoch second. -/
def generateMockAircraft (count : Nat) (draws : Nat → MockDraw)
    (atan2deg : ℚ → ℚ → ℚ) (nowTs : ℤ) : List AircraftDict :=
  (List.range count).map (fun i =>
    let d := draws i
    let origin := chooseD ("KJFK", 40.6413, -73.7781, "New York") mockAirports d.originIdx
    let dest := chooseD ("KLAX", 33.9416, -118.4085, "Los Angeles")
      (mockAirports.filter (fun a => a.1 ≠ origin.1)) d.destIdx
    let lat0 := origin.2.1 + d.t * (dest.2.1 - origin.2.1) + d.gaussLat
    let lon0 := origin.2.2.1 + d.t * (dest.2.2.1 - origin.2.2.1) + d.gaussLon
    let lat := max (-85 : ℚ) (min 85 lat0)
    let lon := max (-180 : ℚ) (min 180 lon0)
    let dlat := dest.2.1 - origin.2.1
    let dlon := dest.2.2.1 - origin.2.2.1
    let heading := pyModQ (atan2deg dlon dlat) 360
    let airline := chooseD ("UAL", "United Airlines") mockAirlines d.airlineIdx
    { icao24 := icaoHex d.icaoNum
      callsign := airline.1 ++ toString d.callsignNum
      origin_country := chooseD "United States" mockCountries d.countryIdx
      latitude := pyRoundTo 4 lat
      longitude := pyRoundTo 4 lon
      altitude_ft := (d.altitude : ℚ)
      altitude_m := (pyRound ((d.altitude : ℚ) * (0.3048 : ℚ)) : ℚ)
      velocity_kts := (d.velocity : ℚ)
      velocity_ms := some (pyRoundTo 1 ((d.velocity : ℚ) * (0.5144 : ℚ)))
      heading := pyRoundTo 1 heading
      vertical_rate := (d.verticalRate : ℚ)
      aircraft_type := some (chooseD "B738" mockTypes d.typeIdx)
      squawk := pad4 d.squawkNum
      on_ground := false
      last_contact := nowTs
      is_mock := true })

/-! ### The fetch fallback chain -/

/-- The decoded OpenSky response body: `data.get("states")` may be a
JSON null (`none` here), which `or []` turns into the empty list. -/
structure OpenSkyResp where
  states : Option (List (Option StateVec))

/-- One FR24 flight object, with the fields `fetch_fr24` reads. -/
structure Fr24Flight where
  hex : Option String
  callsign : Option String
  orig_iata : Option String
  lat : Option ℚ
  lon : Option ℚ
  alt : Option ℚ
  spd : Option ℚ
  track : Option ℚ
  vsi : Option ℚ
  gnd : Option Bool
  squawk : Option String
  ftype : Option String

/-- The decoded FR24 response body. -/
structure Fr24Resp where
  flights : List Fr24Flight

/-- All external inputs of one aviation fetch: the cache lookup result,
the `FORCE_MOCK_DATA` flag, the FR24 token, the three provider request
outcomes (`.error` = any raised request/decode exception), the RNG
oracle of the mock generator, the transcendental-function oracle, and
the clock. -/
structure FetchEnv where
  cached : Option (List AircraftDict)
  forceMock : Bool
  fr24Token : Option String
  openskyResp : Except String OpenSkyResp
  adsbResp : Except String AdsbResp
  fr24Resp : Except String Fr24Resp
  mockDraws : Nat → MockDraw
  atan2deg : ℚ → ℚ → ℚ
  nowTs : ℤ

/-- The flight-to-dict mapping inside `fetch_fr24` (lines 226-243). -/
def parseFr24 (now : ℤ) (f : Fr24Flight) : AircraftDict :=
  { icao24 := f.hex.getD ""
    callsign := f.callsign.getD "UNKNOWN"
    origin_country := f.orig_iata.getD ""
    latitude := f.lat.getD 0
    longitude := f.lon.getD 0
    altitude_ft := f.alt.getD 0
    altitude_m := (pyRound ((f.alt.getD 0) * (0.3048 : ℚ)) : ℚ)
    velocity_ms := none
    velocity_kts := f.spd.getD 0
    heading := f.track.getD 0
    vertical_rate := f.vsi.getD 0
    on_ground := f.gnd.getD false
    squawk := f.squawk.getD "----"
    aircraft_type := some (f.ftype.getD "")
    last_contact := now
    is_mock := false }

/-- `fetch_fr24` (lines 205-249): empty list without a token or on any
request error. -/
def fetchFr24 (env : FetchEnv) : List AircraftDict :=
  match env.fr24Token with
  | none => []
  | some _ =>
    match env.fr24Resp with
    | .error _ => []
    | .ok r => r.flights.map (parseFr24 env.nowTs)

/-- `fetch_opensky` (lines 108-202): cache hit short-circuit, forced
mock, live OpenSky parse with airborne filter, adsb.fi fallback, mock
generator as the last resort.  The cache-store side effects are not
needed by the claims and are not modelled. -/
def fetchOpensky (env : FetchEnv) : List AircraftDict :=
  match env.cached with
  | some c => c
  | none =>
    if env.forceMock then
      generateMockAircraft 500 env.mockDraws env.atan2deg env.nowTs
    else
      match env.openskyResp with
      | .ok resp =>
        let states := resp.states.getD []
        let aircraft := states.filterMap (parseOpenskyState env.nowTs)
        aircraft.filter (fun a => !a.on_ground)
      | .error _ =>
        match adsbFallbackResult env.adsbResp with
        | some as_ => as_
        | none => generateMockAircraft 500 env.mockDraws env.atan2deg env.nowTs

/-- `get_aircraft` (lines 252-263). -/
def getAircraft (env : FetchEnv) : List AircraftDict :=
  match env.fr24Token with
  | some _ =>
    let r := fetchFr24 env
    if r = [] then fetchOpensky env else r
  | none => fetchOpensky env

/-- The `Aircraft` class (lines 289-305). -/
structure Aircraft where
  icao24 : String
  callsign : String
  origin_country : String
  latitude : ℚ
  longitude : ℚ
  altitude_ft : ℚ
  altitude_m : ℚ
  velocity_kts : ℚ
  heading : ℚ
  vertical_rate : ℚ
  on_ground : Bool
  squawk : String
  aircraft_type : String
  last_contact : ℤ
  is_mock : Bool
deriving Repr, DecidableEq

/-- `Aircraft.__init__`: `float(d.get(k) or 0.0)` is the identity on the
rational value of a key every producer supplies, so the numeric fields
copy over directly. -/
def Aircraft.ofDict (d : AircraftDict) : Aircraft :=
  { icao24 := d.icao24
    callsign := pyStrip (pyOrS (some d.callsign) "UNKNOWN")
    origin_country := d.origin_country
    latitude := d.latitude
    longitude := d.longitude
    altitude_ft := d.altitude_ft
    altitude_m := d.altitude_m
    velocity_kts := d.velocity_kts
    heading := d.heading
    vertical_rate := d.vertical_rate
    on_ground := d.on_ground
    squawk := d.squawk
    aircraft_type := d.aircraft_type.getD ""
    last_contact := d.last_contact
    is_mock := d.is_mock }

/-- `fetch_aircraft` (lines 264-268). -/
def fetchAircraft (env : FetchEnv) : List Aircraft × Bool :=
  let raw := getAircraft env
  let aircraft := (raw.take 500).map Aircraft.ofDict
  (aircraft, aircraft.any (fun a => !a.is_mock))

/-! ### `check_aviation_anomalies` -/

/-- A Python value stored in an anomaly dict. -/
inductive PyVal where
  | s (v : String)
  | q (v : ℚ)
deriving Repr, DecidableEq

/-- An anomaly record is the literal Python dict: an ordered list of
key-value pairs. -/
def pyDictGet (d : List (String × PyVal)) (k : String) : Option PyVal :=
  (d.find? (fun p => p.1 = k)).map (fun p => p.2)

/-- `EMERGENCY_SQUAWKS` (line 270). -/
def emergencySquawks : List String := ["7700", "7600", "7500"]

/-- `SQUAWK_LABELS.get(squawk, "Emergency")` (lines 271, 282). -/
def squawkLabelGet (s : String) : String :=
  if s = "7700" then "General Emergency"
  else if s = "7600" then "Radio Failure"
  else if s = "7500" then "Hijacking"
  else "Emergency"

/-- `check_aviation_anomalies(aircraft)` (lines 273-286), on the
`Aircraft`-object batches the pipeline feeds it (the `hasattr` branch). -/
def checkAviationAnomalies (aircraft : List Aircraft) : List (List (String × PyVal)) :=
  aircraft.filterMap (fun ac =>
    let squawk := pyStrip ac.squawk
    if squawk ∈ emergencySquawks then
      some [("icao24", .s ac.icao24), ("callsign", .s ac.callsign),
            ("squawk", .s squawk), ("label", .s (squawkLabelGet squawk)),
            ("latitude", .q ac.latitude), ("longitude", .q ac.longitude)]
    else none)

/-! ## Alert log: `utils/alerts.py` -/

/-- An `AlertRecord` (alerts.py lines 27-34); the timestamp is the
wall-clock value passed in by the caller model. -/
structure AlertRecord where
  level : String
  source : String
  message : String
  details : Option String
  timestamp : ℤ
deriving Repr, DecidableEq

/-- `MAX_LOG_SIZE` (line 52). -/
def MAX_LOG_SIZE : Nat := 100

/-- The arguments of one `dispatch_alert` call, plus the clock reading
at which its record is created. -/
structure DispatchCall where
  level : String
  source : String
  message : String
  details : Option String
  now : ℤ
deriving Repr, DecidableEq

/-- The record a dispatch call constructs. -/
def DispatchCall.record (c : DispatchCall) : AlertRecord :=
  ⟨c.level, c.source, c.message, c.details, c.now⟩

/-- The in-memory-log effect of `dispatch_alert` (lines 75-78): append,
then drop the oldest entry if the log now exceeds `MAX_LOG_SIZE`.  The
logging and optional email/SMS sends touch no shared in-process state
and are not modelled. -/
def dispatchAlertLog (log : List AlertRecord) (c : DispatchCall) : List AlertRecord :=
  let log1 := log ++ [c.record]
  if MAX_LOG_SIZE < log1.length then log1.drop 1 else log1

/-- The log after a sequence of dispatches starting from an empty log. -/
def runDispatches (calls : List DispatchCall) : List AlertRecord :=
  calls.foldl dispatchAlertLog []

/-- Python list slice `l[k:]` for an arbitrary (possibly negative)
integer start. -/
def pySliceFrom {α : Type} (k : ℤ) (l : List α) : List α :=
  if 0 ≤ k then l.drop k.toNat else l.drop (l.length - (-k).toNat)

/-- `get_recent_alerts(limit)` (lines 91-93):
`list(reversed(_in_memory_log[-limit:]))`. -/
def getRecentAlerts (limit : ℤ) (log : List AlertRecord) : List AlertRecord :=
  (pySliceFrom (-limit) log).reverse

/-! ## Satellite region imagery: `data_sources/satellite.py` -/

/-- A WMS bounding box `(west, south, east, north)` in degrees. -/
structure BBox where
  west : ℚ
  south : ℚ
  east : ℚ
  north : ℚ
deriving Repr, DecidableEq

/-- The `regions` table of `fetch_region_image` (lines 114-124),
including the `.get` default for unknown names. -/
def satelliteRegions (region : String) : BBox :=
  if region = "Global" then ⟨-180, -90, 180, 90⟩
  else if region = "North America" then ⟨-170, 15, -50, 80⟩
  else if region = "Europe" then ⟨-30, 30, 45, 75⟩
  else if region = "Asia Pacific" then ⟨60, -15, 180, 60⟩
  else if region = "Africa" then ⟨-25, -40, 60, 40⟩
  else if region = "Middle East" then ⟨25, 10, 75, 45⟩
  else if region = "South America" then ⟨-85, -60, -30, 15⟩
  else if region = "Arctic" then ⟨-180, 60, 180, 90⟩
  else ⟨-180, -90, 180, 90⟩

/-- `ratio = lon_span / lat_span if lat_span > 0 else 2` (line 130). -/
def bboxRatio (b : BBox) : ℚ :=
  if 0 < b.north - b.south then (b.east - b.west) / (b.north - b.south) else 2

/-- The output size computed by `fetch_region_image` (lines 127-132):
`width = 800`, `height = max(200, int(width / ratio))`. -/
def regionImageSize (region : String) : Nat × Nat :=
  let b := satelliteRegions region
  let ratio := bboxRatio b
  (800, max 200 (pyTrunc ((800 : ℚ) / ratio)).toNat)

/-- `fetch_region_image(layer, date, region)` requests an image of
exactly the computed size: the WMS `WIDTH`/`HEIGHT` parameters fix the
live image's dimensions and `_generate_mock_satellite` builds a
`(width, height)` raster, so the returned image size depends only on
the region, not on the layer or the date. -/
def fetchRegionImageSize (_layerName : String) (_dateStr : String) (region : String) :
    Nat × Nat :=
  regionImageSize region

/-! ## MJPEG frame extraction: `data_sources/cameras.py` -/

/-- Does the byte pattern `pat` occur at the head of `l`? -/
def bytesStartWith : List Nat → List Nat → Bool
  | _, [] => true
  | [], _ :: _ => false
  | b :: bs, p :: ps => b = p && bytesStartWith bs ps

/-- Search for `pat` at positions `i, i+1, ...`, with enough fuel to
cover the buffer. -/
def pyFindAux (buf pat : List Nat) : Nat → Nat → Option Nat
  | _, 0 => none
  | i, fuel + 1 =>
    if bytesStartWith (buf.drop i) pat then some i
    else pyFindAux buf pat (i + 1) fuel

/-- Python `buffer.find(pat, start)` for a non-empty byte pattern,
returning `none` instead of -1. -/
def pyFind (buf pat : List Nat) (start : Nat) : Option Nat :=
  pyFindAux buf pat start (buf.length + 1 - start)

/-- The marker scan of `_fetch_mjpeg_frame` (cameras.py lines 108-115)
on one accumulated buffer: first `FF D8`, then the first `FF D9` at or
after `start + 2`; on success the extracted bytes `buffer[start:end+2]`. -/
def extractFrame (buffer : List Nat) : Option (List Nat) :=
  match pyFind buffer [0xff, 0xd8] 0 with
  | none => none
  | some s =>
    match pyFind buffer [0xff, 0xd9] (s + 2) with
    | none => none
    | some e => some ((buffer.take (e + 2)).drop s)

/-- `max_bytes` (line 102). -/
def MJPEG_MAX_BYTES : Nat := 1000000

/-- The chunk loop of `_fetch_mjpeg_frame` (lines 104-120): accumulate
each chunk, return the first complete frame, raise (`.error`) once more
than `max_bytes` have been read without one, `.ok none` when the stream
ends first. -/
def mjpegLoop : List (List Nat) → List Nat → Nat → Except String (Option (List Nat))
  | [], _, _ => .ok none
  | c :: rest, buffer, bytesRead =>
    let buffer1 := buffer ++ c
    let bytesRead1 := bytesRead + c.length
    match extractFrame buffer1 with
    | some jpeg => .ok (some jpeg)
    | none =>
      if MJPEG_MAX_BYTES < bytesRead1 then .error "MJPEG frame exceeded 1MB limit"
      else mjpegLoop rest buffer1 bytesRead1

/-- `_fetch_mjpeg_frame` on a stream delivered as chunks (decoding a
complete JPEG is modelled as returning its exact byte range). -/
def fetchMjpegFrame (chunks : List (List Nat)) : Except String (Option (List Nat)) :=
  mjpegLoop chunks [] 0

/-! ## Object detector: `vision/detector.py` -/

/-- An RGB colour. -/
def Color := Nat × Nat × Nat

instance : DecidableEq Color := by
  unfold Color
  infer_instance

/-- A PIL image: dimensions plus a pixel map (coordinates outside
`[0,w) × [0,h)` are irrelevant). -/
structure PILImage where
  width : ℤ
  height : ℤ
  px : ℤ → ℤ → Color

/-- `ImageDraw.rectangle(..., fill=c)`: fill the inclusive rectangle. -/
def fillRect (img : PILImage) (x0 y0 x1 y1 : ℤ) (c : Color) : PILImage :=
  { img with
    px := fun x y =>
      if x0 ≤ x ∧ x ≤ x1 ∧ y0 ≤ y ∧ y ≤ y1 then c else img.px x y }

/-- `ImageDraw.rectangle(..., outline=c, width=w)`: colour the border
band of thickness `w` growing inward from the inclusive rectangle edge. -/
def strokeRect (img : PILImage) (x0 y0 x1 y1 : ℤ) (c : Color) (w : ℤ) : PILImage :=
  { img with
    px := fun x y =>
      if (x0 ≤ x ∧ x ≤ x1 ∧ y0 ≤ y ∧ y ≤ y1) ∧
         (x < x0 + w ∨ x1 - w < x ∨ y < y0 + w ∨ y1 - w < y)
      then c else img.px x y }

/-- `ImageDraw.text`: font rasterisation is external, so the renderer is
an oracle mapping (image, anchor x, anchor y, text, colour) to the image
with the text drawn. -/
def TextDraw := PILImage → ℤ → ℤ → String → Color → PILImage

/-- A single YOLO detection (detector.py lines 62-68). -/
structure Detection where
  class_id : ℤ
  class_name : String
  confidence : ℚ
  bbox : ℤ × ℤ × ℤ × ℤ
deriving Repr, DecidableEq

/-- A `DetectionResult` (lines 78-93); `timestamp` is the clock reading
passed in by the caller model. -/
structure DetectionResult where
  detections : List Detection
  annotated_image : Option PILImage
  inference_ms : ℚ
  anomalies : List String
  is_live : Bool
  timestamp : ℚ

/-- The detector state `detect` branches on: the `is_loaded` flag and
whether `self.model` is set. -/
structure DetectorState where
  is_loaded : Bool
  modelLoaded : Bool
deriving Repr, DecidableEq

/-- The per-class colour table of `_draw_detections` (lines 219-228),
with the hex literals as RGB triples. -/
def classColor (name : String) : Color :=
  if name = "person" then (0xFF, 0x44, 0x44)
  else if name = "car" then (0x44, 0xFF, 0x44)
  else if name = "truck" then (0xFF, 0x88, 0x00)
  else if name = "bus" then (0xFF, 0x88, 0x00)
  else if name = "motorcycle" then (0x00, 0xFF, 0xFF)
  else if name = "bicycle" then (0xFF, 0xFF, 0x00)
  else if name = "airplane" then (0xFF, 0x44, 0xFF)
  else if name = "boat" then (0x44, 0x88, 0xFF)
  else (0xFF, 0xFF, 0xFF)

/-- The label text `f"{class_name} {confidence:.0%}"`. -/
def detLabel (det : Detection) : String :=
  det.class_name ++ " " ++ toString (pyRound (det.confidence * 100)) ++ "%"

/-- Per-class counts in first-appearance order (the Python dict loop of
lines 249-251 and 267-269). -/
def classCounts (dets : List Detection) : List (String × Nat) :=
  dets.foldl
    (fun acc d =>
      if acc.any (fun p => p.1 = d.class_name) then
        acc.map (fun p => if p.1 = d.class_name then (p.1, p.2 + 1) else p)
      else acc ++ [(d.class_name, 1)])
    []

/-- `"  ".flatten(f"{k}:{v}" for k, v in sorted(counts.items()))`. -/
def statsText (dets : List Detection) : String :=
  String.intercalate "  "
    (((classCounts dets).mergeSort (fun a b => a.1 ≤ b.1)).map
      (fun p => p.1 ++ ":" ++ toString p.2))

/-- Drawing of one detection (lines 235-246): outline box, label
background, label text. -/
def drawOneDetection (textDraw : TextDraw) (img : PILImage) (det : Detection) : PILImage :=
  let (x1, y1, x2, y2) := det.bbox
  let color := classColor det.class_name
  let img := strokeRect img x1 y1 x2 y2 color 2
  let label := detLabel det
  let labelH : ℤ := 14
  let img := fillRect img x1 (y1 - labelH) (x1 + (label.length : ℤ) * 6 + 4) y1 color
  textDraw img (x1 + 2) (y1 - labelH) label (0, 0, 0)

/-- `_draw_detections` (lines 214-259): draw every detection, then the
bottom stats overlay when any detection exists. -/
def drawDetections (textDraw : TextDraw) (img : PILImage) (dets : List Detection) : PILImage :=
  let img := dets.foldl (drawOneDetection textDraw) img
  if dets.isEmpty then img
  else
    let h := img.height
    let w := img.width
    let img := fillRect img 0 (h - 20) w h (0, 0, 0)
    textDraw img 4 (h - 16) ("Detected: " ++ statsText dets) (100, 255, 100)

/-- `_check_anomalies` (lines 261-291).  The crowd and vehicle
thresholds are configuration values and are passed in (the shipped
`config/settings.py` does not actually define the attribute names the
detector reads, which by itself sends every call down the exception
path; the thresholds are abstracted so that the drawing path can be
reasoned about). -/
def checkDetectionAnomalies (crowdThreshold vehicleThreshold : Nat)
    (dets : List Detection) (imgW imgH : ℤ) : List String :=
  let counts := classCounts dets
  let countOf := fun n => ((counts.find? (fun p => p.1 = n)).map (fun p => p.2)).getD 0
  let persons := countOf "person"
  let a1 := if crowdThreshold ≤ persons then
    ["Large crowd detected: " ++ toString persons ++ " people in frame"] else []
  let vehicles := countOf "car" + countOf "truck" + countOf "bus" + countOf "motorcycle"
  let a2 := if vehicleThreshold ≤ vehicles then
    ["High vehicle density: " ++ toString vehicles ++ " vehicles"] else []
  let a3 := if 0 < countOf "airplane" then
    (dets.filterMap (fun d =>
      if d.class_name = "airplane" then
        let boxArea := (d.bbox.2.2.1 - d.bbox.1) * (d.bbox.2.2.2 - d.bbox.2.1)
        if ((imgW * imgH : ℤ) : ℚ) * (5 / 100) < ((boxArea : ℤ) : ℚ) then
          some "Large aircraft close to ground camera"
        else none
      else none))
    else []
  a1 ++ a2 ++ a3

/-- `_passthrough_result` (lines 293-311): draws the status banner
directly onto the image it is handed and returns that same image as the
annotated result. -/
def passthroughResult (st : DetectorState) (textDraw : TextDraw) (now : ℚ)
    (image : PILImage) : DetectionResult × PILImage :=
  let h := image.height
  let w := image.width
  let img1 := fillRect image 0 (h - 20) w h (0, 0, 0)
  let status := if st.is_loaded = false then "YOLO not loaded" else "Detection disabled"
  let img2 := textDraw img1 4 (h - 16) status (150, 150, 150)
  (⟨[], some img2, 0, [], false, now⟩, img2)

/-- `YOLODetector.detect` (lines 157-212).  `infer` is the outcome of
the model call and box decoding inside the `try` block (`.error` for any
raised exception); `elapsedMs` the measured inference time.  The second
component of the result is the caller's image after the call: the
detection path draws on `image.copy()` and hands the caller's image back
untouched, while the passthrough path draws on the caller's image
itself.  The advisory per-camera result cache is not modelled. -/
def detect (st : DetectorState) (crowdThreshold vehicleThreshold : Nat)
    (infer : Except String (List Detection)) (textDraw : TextDraw)
    (elapsedMs now : ℚ) (image : PILImage) : DetectionResult × PILImage :=
  if st.is_loaded = false ∨ st.modelLoaded = false then
    passthroughResult st textDraw now image
  else
    match infer with
    | .error _ => passthroughResult st textDraw now image
    | .ok dets =>
      let annotated := drawDetections textDraw image dets
      let anomalies := checkDetectionAnomalies crowdThreshold vehicleThreshold dets
        image.width image.height
      (⟨dets, some annotated, elapsedMs, anomalies, true, now⟩, image)

/-! ## Concrete inputs used by witnesses and counterexamples -/

/-- A state vector with full position data, a 10 m/s climb and a 100 m/s
ground speed. -/
def svClimb : StateVec :=
  { len := 17, icao24 := "abc123", callsign := some "TST100", originCountry := some "Testland",
    lastContact := some 5, lon := some 5, lat := some 50, baroAltitude := some 1000,
    onGround := some false, velocity := some 100, trueTrack := some 90,
    verticalRate := some 10, geoAltitude := none, squawk := some "1200" }

/-- A state vector whose position is far outside the WGS84 range. -/
def svOutOfRange : StateVec :=
  { len := 17, icao24 := "def456", callsign := none, originCountry := none,
    lastContact := none, lon := some 200, lat := some 95, baroAltitude := none,
    onGround := none, velocity := none, trueTrack := none,
    verticalRate := none, geoAltitude := none, squawk := none }

/-- A fetched aircraft squawking the general-emergency code 7700. -/
def acEmergency : Aircraft :=
  { icao24 := "abc123", callsign := "TST100", origin_country := "Testland",
    latitude := 10, longitude := 20, altitude_ft := 30000, altitude_m := 9144,
    velocity_kts := 450, heading := 90, vertical_rate := 0, on_ground := false,
    squawk := "7700", aircraft_type := "B738", last_contact := 0, is_mock := false }

/-- An adsb.fi record with a nonzero position. -/
def adsbRecOk : AdsbRec :=
  { hex := some "a1b2c3", flight := some "TST200 ", r := some "N123AB",
    lat := some 40.5, lon := some (-73.9), alt_baro := some (.num 12000),
    gs := some 310, track := some 45, baro_rate := some 0,
    squawk := some "1200", t := some "B738" }

/-- One alert dispatch call. -/
def callA : DispatchCall := ⟨"INFO", "Test", "first", none, 0⟩

/-- A second alert dispatch call. -/
def callB : DispatchCall := ⟨"WARNING", "Test", "second", none, 1⟩

/-- A third alert dispatch call. -/
def callC : DispatchCall := ⟨"CRITICAL", "Test", "third", some "detail", 2⟩

/-- A 30 by 30 all-white camera frame. -/
def whiteImage : PILImage := ⟨30, 30, fun _ _ => (255, 255, 255)⟩

/-- A text-draw oracle that rasterises nothing (a conservative
under-approximation of the pixels a renderer touches). -/
def idTextDraw : TextDraw := fun img _ _ _ _ => img

/-- A fixed mock-generator draw. -/
def mockDraw0 : MockDraw :=
  { originIdx := 0, destIdx := 0, t := 1/2, gaussLat := 0, gaussLon := 0,
    airlineIdx := 0, callsignNum := 123, countryIdx := 0, altitude := 20000,
    velocity := 400, verticalRate := 0, typeIdx := 0, squawkNum := 1200, icaoNum := 10 }

/-- The dict the adsb.fi fallback builds from `adsbRecOk`. -/
def adsbParsedOk : AircraftDict :=
  { icao24 := "a1b2c3", callsign := "TST200", origin_country := "N123AB",
    latitude := 40.5, longitude := -73.9, altitude_ft := 12000,
    altitude_m := 3657.6, velocity_ms := none, velocity_kts := 310,
    heading := 45, vertical_rate := 0, on_ground := false, squawk := "1200",
    aircraft_type := some "B738", last_contact := 0, is_mock := false }

/-- A one-megabyte-plus chunk of zero bytes (kept behind a definition so
that tactics never try to materialise the million-element list). -/
def bigZeroChunk : List Nat := List.replicate 1000001 0

/-- A fetch environment in which every live request errors out:
cache miss, mock data not forced, no FR24 token, and both OpenSky and
adsb.fi raising. -/
def envAllFail : FetchEnv :=
  { cached := none, forceMock := false, fr24Token := none,
    openskyResp := .error "timeout", adsbResp := .error "timeout",
    fr24Resp := .error "timeout",
    mockDraws := fun _ => mockDraw0, atan2deg := fun _ _ => 0, nowTs := 0 }

/-! ## Theorems

### C7 — numeric semantics of the OpenSky parser -/

/-- C7 counterexample: the parser leaves the vertical rate in m/s.  On a
state vector reporting a 10 m/s climb the parsed `vertical_rate` is 10,
while a knots conversion (like the speed) would give 19.4 and a
feet-based conversion (like the altitude) 32.8; the claim that the
vertical rate is "converted similarly" fails on this record. -/
theorem c7_vertical_rate_not_converted :
    (parseOpenskyState 0 (some svClimb)).map AircraftDict.vertical_rate = some 10 ∧
    pyRoundTo 1 ((10 : ℚ) * (1.94384 : ℚ)) = 19.4 ∧
    pyRoundTo 1 ((10 : ℚ) * (3.28084 : ℚ)) = 32.8 ∧
    (10 : ℚ) ≠ 19.4 ∧ (10 : ℚ) ≠ 32.8 := by
  refine ⟨?_, ?_, ?_, by norm_num, by norm_num⟩
  · simp [parseOpenskyState, parseOpenskyStateVec, svClimb, pyOrQ, pyRoundTo, pyRound]
    norm_num
  · unfold pyRoundTo pyRound
    norm_num
  · unfold pyRoundTo pyRound
    norm_num

/-- C7 (amended): every parsed OpenSky record converts its altitude
(meters, barometric with geometric fallback) to feet via 3.28084 and its
speed (m/s) to knots via 1.94384, both rounded half-to-even; the
vertical rate is kept in m/s, merely rounded to one decimal, with no
unit conversion; missing numeric fields default to 0; an absent squawk
becomes the sentinel `"----"`. -/
theorem opensky_numeric_semantics (now : ℤ) (s : StateVec) (r : AircraftDict)
    (h : parseOpenskyState now (some s) = some r) :
    r.altitude_ft =
      (pyRound (pyOrQ s.baroAltitude (pyOrQ s.geoAltitude 0) * (3.28084 : ℚ)) : ℚ) ∧
    r.velocity_kts = (pyRound (pyOrQ s.velocity 0 * (1.94384 : ℚ)) : ℚ) ∧
    r.vertical_rate = pyRoundTo 1 (pyOrQ s.verticalRate 0) ∧
    (s.velocity = none → r.velocity_kts = 0) ∧
    (s.verticalRate = none → r.vertical_rate = 0) ∧
    (s.baroAltitude = none → s.geoAltitude = none → r.altitude_ft = 0) ∧
    (s.squawk = none → r.squawk = "----") := by
  simp only [parseOpenskyState] at h
  unfold parseOpenskyStateVec at h
  split at h
  · exact absurd h (by simp)
  rcases hlon : s.lon with _ | lon <;> rw [hlon] at h
  · exact absurd h (by simp)
  rcases hlat : s.lat with _ | lat <;> rw [hlat] at h
  · exact absurd h (by simp)
  simp only [Option.some.injEq] at h
  subst h
  refine ⟨rfl, rfl, rfl, ?_, ?_, ?_, ?_⟩
  · intro hv
    simp [hv, pyOrQ, pyRound]
  · intro hv
    simp [hv, pyOrQ, pyRoundTo, pyRound]
  · intro h1 h2
    simp [h1, h2, pyOrQ, pyRound]
  · intro hs
    simp [hs, pyOrS]

/-- C7 witness: `opensky_numeric_semantics` applied to the concrete
climbing state vector. -/
theorem opensky_numeric_semantics_witness :
    (parseOpenskyState 0 (some svClimb)).isSome = true ∧
    ∀ r, parseOpenskyState 0 (some svClimb) = some r →
      r.velocity_kts = (pyRound (pyOrQ svClimb.velocity 0 * (1.94384 : ℚ)) : ℚ) ∧
      r.vertical_rate = pyRoundTo 1 (pyOrQ svClimb.verticalRate 0) := by
  constructor
  · simp [parseOpenskyState, parseOpenskyStateVec, svClimb]
  · intro r h
    exact ⟨(opensky_numeric_semantics 0 svClimb r h).2.1,
           (opensky_numeric_semantics 0 svClimb r h).2.2.1⟩

/-! ### C8 — no coordinate range check in the parsers -/

/-- C8 counterexample: a state vector with latitude 95 and longitude 200
is *not* discarded — the parser returns it with those out-of-range
coordinates, so the claimed `[-90, 90] × [-180, 180]` invariant fails. -/
theorem c8_out_of_range_not_discarded :
    (parseOpenskyState 0 (some svOutOfRange)).map AircraftDict.latitude = some 95 ∧
    (parseOpenskyState 0 (some svOutOfRange)).map AircraftDict.longitude = some 200 ∧
    ¬ ((95 : ℚ) ≤ 90) ∧ ¬ ((200 : ℚ) ≤ 180) := by
  refine ⟨?_, ?_, by norm_num, by norm_num⟩ <;>
    · simp [parseOpenskyState, parseOpenskyStateVec, svOutOfRange, pyRoundTo, pyRound]
      norm_num

/-- C8 (amended): the parse step discards a record exactly when the
state vector is null, shorter than 17 fields, or has a null latitude or
longitude; the coordinates of every kept record are passed through
(rounded to 4 decimals, or raw in the adsb.fi fallback) with no range
validation. -/
theorem parse_position_passthrough :
    (∀ (now : ℤ) (s : StateVec),
       (parseOpenskyState now (some s)).isSome ↔
         17 ≤ s.len ∧ s.lon ≠ none ∧ s.lat ≠ none) ∧
    (∀ (now : ℤ) (s : StateVec) (r : AircraftDict),
       parseOpenskyState now (some s) = some r →
         r.latitude = pyRoundTo 4 (s.lat.getD 0) ∧
         r.longitude = pyRoundTo 4 (s.lon.getD 0)) ∧
    (∀ (ac : AdsbRec) (d : AircraftDict),
       parseAdsbRec ac = .ok (some d) →
         d.latitude = ac.lat.getD 0 ∧ d.longitude = ac.lon.getD 0) := by
  refine ⟨?_, ?_, ?_⟩
  · intro now s
    simp only [parseOpenskyState]
    unfold parseOpenskyStateVec
    split
    · simp
      omega
    · rcases hlon : s.lon with _ | lon <;> rcases hlat : s.lat with _ | lat <;> simp <;> omega
  · intro now s r h
    simp only [parseOpenskyState] at h
    unfold parseOpenskyStateVec at h
    split at h
    · exact absurd h (by simp)
    rcases hlon : s.lon with _ | lon <;> rw [hlon] at h
    · exact absurd h (by simp)
    rcases hlat : s.lat with _ | lat <;> rw [hlat] at h
    · exact absurd h (by simp)
    simp only [Option.some.injEq] at h
    subst h
    simp [hlon, hlat]
  · intro ac d h
    unfold parseAdsbRec at h
    split at h
    · exact absurd h (by simp)
    rcases hb : adsbAltFloat ac.alt_baro with e | altFt <;> rw [hb] at h
    · exact absurd h (by simp)
    simp only [Except.ok.injEq, Option.some.injEq] at h
    subst h
    exact ⟨rfl, rfl⟩

/-- C8 witness: `parse_position_passthrough` applied to the out-of-range
state vector and to a concrete adsb.fi record. -/
theorem parse_position_passthrough_witness :
    ((parseOpenskyState 0 (some svOutOfRange)).isSome ↔
      17 ≤ svOutOfRange.len ∧ svOutOfRange.lon ≠ none ∧ svOutOfRange.lat ≠ none) ∧
    (∀ d, parseAdsbRec adsbRecOk = .ok (some d) →
       d.latitude = adsbRecOk.lat.getD 0 ∧ d.longitude = adsbRecOk.lon.getD 0) :=
  ⟨parse_position_passthrough.1 0 svOutOfRange,
   fun d h => parse_position_passthrough.2.2 adsbRecOk d h⟩

/-! ### C10 — the adsb.fi falsy position check -/

/-- Records surviving `parseAdsbList` have nonzero coordinates. -/
theorem parseAdsbList_nonzero_coords (l : List AdsbRec) (ds : List AircraftDict)
    (h : parseAdsbList l = .ok ds) :
    ∀ d ∈ ds, d.latitude ≠ 0 ∧ d.longitude ≠ 0 := by
  induction l generalizing ds with
  | nil =>
    simp only [parseAdsbList, Except.ok.injEq] at h
    subst h
    intro d hd
    exact absurd hd (List.not_mem_nil d)
  | cons ac rest ih =>
    simp only [parseAdsbList] at h
    rcases hr : parseAdsbRec ac with e | od <;> rw [hr] at h
    · exact absurd h (by simp)
    rcases od with _ | d0
    · exact ih ds h
    rcases hrest : parseAdsbList rest with e | ds' <;> rw [hrest] at h
    · exact absurd h (by simp)
    simp only [Except.ok.injEq] at h
    subst h
    intro d hd
    rcases List.mem_cons.mp hd with rfl | hd'
    · unfold parseAdsbRec at hr
      split at hr
      · exact absurd hr (by simp)
      · rename_i hfalsy
        rcases hb : adsbAltFloat ac.alt_baro with e | altFt <;> rw [hb] at hr
        · exact absurd hr (by simp)
        simp only [Except.ok.injEq, Option.some.injEq] at hr
        subst hr
        simp only [adsbFalsy, decide_eq_true_eq, not_or] at hfalsy
        exact ⟨fun hc => hfalsy.1 (by simpa using hc), fun hc => hfalsy.2 (by simpa using hc)⟩
    · exact ih ds' hrest d hd'

/-- C10: the adsb.fi fallback parser skips every record whose `lat` or
`lon` is absent or exactly 0 (Python falsy check), so no aircraft the
fallback returns ever has latitude 0 or longitude 0. -/
theorem adsb_fallback_skips_falsy :
    (∀ ac : AdsbRec,
       (ac.lat = none ∨ ac.lat = some 0 ∨ ac.lon = none ∨ ac.lon = some 0) →
       parseAdsbRec ac = .ok none) ∧
    (∀ (resp : Except String AdsbResp) (as_ : List AircraftDict),
       adsbFallbackResult resp = some as_ →
       ∀ d ∈ as_, d.latitude ≠ 0 ∧ d.longitude ≠ 0) := by
  constructor
  · intro ac hac
    unfold parseAdsbRec
    have : adsbFalsy ac.lat ∨ adsbFalsy ac.lon := by
      rcases hac with h | h | h | h <;> simp [adsbFalsy, h]
    simp [this]
  · intro resp as_ h d hd
    rcases resp with e | r
    · exact absurd h (by simp [adsbFallbackResult])
    simp only [adsbFallbackResult] at h
    split at h
    · rcases hl : parseAdsbList (r.aircraft.take 500) with e | ds
      · simp only [hl] at h
        exact Option.noConfusion h
      · simp only [hl] at h
        split at h
        · exact Option.noConfusion h
        simp only [Option.some.injEq] at h
        subst h
        exact parseAdsbList_nonzero_coords _ _ hl d hd
    · exact Option.noConfusion h

/-- C10 witness: the falsy skip on a record sitting exactly on the
equator, and the nonzero-coordinate conclusion on a concrete successful
fallback response. -/
theorem adsb_fallback_skips_falsy_witness :
    ({ adsbRecOk with lat := some 0 } : AdsbRec).lat = some 0 ∧
    parseAdsbRec { adsbRecOk with lat := some 0 } = .ok none ∧
    adsbFallbackResult (.ok ⟨200, [adsbRecOk]⟩) = some [adsbParsedOk] ∧
    ∀ d ∈ [adsbParsedOk], d.latitude ≠ 0 ∧ d.longitude ≠ 0 := by
  have h3 : adsbFallbackResult (.ok ⟨200, [adsbRecOk]⟩) = some [adsbParsedOk] := by
    simp [adsbFallbackResult, parseAdsbList, parseAdsbRec, adsbFalsy, adsbAltFloat,
      pyOrQ, adsbRecOk, adsbParsedOk, pyStrip]
    norm_num
  exact ⟨rfl, adsb_fallback_skips_falsy.1 _ (Or.inr (Or.inl rfl)), h3,
    fun d hd => adsb_fallback_skips_falsy.2 _ _ h3 d hd⟩

/-! ### C5 — satellite region image aspect ratio -/

/-- Evaluation of `bboxRatio` on a box with positive latitude span. -/
theorem bboxRatio_eval (w s e n : ℚ) (h : 0 < n - s) :
    bboxRatio ⟨w, s, e, n⟩ = (e - w) / (n - s) := by
  unfold bboxRatio
  exact if_pos h

/-- Evaluation of `pyTrunc` on a non-negative rational. -/
theorem pyTrunc_eval (x : ℚ) (h : 0 ≤ x) : pyTrunc x = ⌊x⌋ := by
  unfold pyTrunc
  exact if_pos h

/-- C5 counterexample: for the Arctic region the bbox lon/lat span
ratio is 12, but the 200-pixel height floor clamps the image to
800 by 200, an aspect ratio of 4 — off by 8, far beyond any rounding
tolerance. -/
theorem c5_arctic_aspect_clamped :
    regionImageSize "Arctic" = (800, 200) ∧
    bboxRatio (satelliteRegions "Arctic") = 12 ∧
    ¬ |((800 : ℚ) / 200) - 12| < 1 := by
  have h : satelliteRegions "Arctic" = ⟨-180, 60, 180, 90⟩ := rfl
  refine ⟨?_, ?_, ?_⟩
  · unfold regionImageSize
    rw [h]
    unfold bboxRatio pyTrunc
    norm_num
  · rw [h]
    unfold bboxRatio
    norm_num
  · rw [abs_sub_comm, abs_of_nonneg (by norm_num)]
    norm_num

/-- C5 (amended): for every region name, layer and date, the fetched
image is 800 pixels wide with height `max(200, int(800/ratio))`; the
aspect ratio matches the bbox lon/lat span ratio within rounding
tolerance whenever that ratio is at most 4, and is clamped by the
200-pixel height floor (aspect capped at 4) when the ratio exceeds 4 —
among the shipped regions only the Arctic. -/
theorem region_aspect_matches (layerName dateStr region : String) :
    (bboxRatio (satelliteRegions region) ≤ 4 →
      |(((fetchRegionImageSize layerName dateStr region).1 : ℚ) /
          ((fetchRegionImageSize layerName dateStr region).2 : ℚ)) -
        bboxRatio (satelliteRegions region)| < 1) ∧
    (4 < bboxRatio (satelliteRegions region) →
      (fetchRegionImageSize layerName dateStr region).2 = 200) := by
  have hmem : satelliteRegions region = ⟨-180, -90, 180, 90⟩ ∨
      satelliteRegions region = ⟨-170, 15, -50, 80⟩ ∨
      satelliteRegions region = ⟨-30, 30, 45, 75⟩ ∨
      satelliteRegions region = ⟨60, -15, 180, 60⟩ ∨
      satelliteRegions region = ⟨-25, -40, 60, 40⟩ ∨
      satelliteRegions region = ⟨25, 10, 75, 45⟩ ∨
      satelliteRegions region = ⟨-85, -60, -30, 15⟩ ∨
      satelliteRegions region = ⟨-180, 60, 180, 90⟩ := by
    unfold satelliteRegions
    split_ifs <;> simp
  rcases hmem with h | h | h | h | h | h | h | h <;>
    (unfold fetchRegionImageSize regionImageSize
     rw [h]
     dsimp only
     rw [bboxRatio_eval _ _ _ _ (by norm_num), pyTrunc_eval _ (by norm_num)]
     refine ⟨fun hr => ?_, fun hr => ?_⟩ <;>
       first
         | (norm_num at hr
            done)
         | (norm_num [Nat.max_def]
            simp only [Int.reduceToNat, Nat.cast_ofNat]
            rw [abs_sub_lt_iff]
            constructor <;> norm_num
            done)
         | (norm_num [Nat.max_def]
            all_goals simp only [Int.reduceToNat, Nat.cast_ofNat]
            all_goals decide))

/-- C5 witness: `region_aspect_matches` for Europe, whose bbox ratio
5/3 produces an exactly matching 800 by 480 image. -/
theorem region_aspect_matches_witness :
    bboxRatio (satelliteRegions "Europe") ≤ 4 ∧
    |(((fetchRegionImageSize "MODIS_Terra_CorrectedReflectance_TrueColor" "2026-10-10"
          "Europe").1 : ℚ) /
        ((fetchRegionImageSize "MODIS_Terra_CorrectedReflectance_TrueColor" "2026-10-10"
          "Europe").2 : ℚ)) -
      bboxRatio (satelliteRegions "Europe")| < 1 := by
  have he : satelliteRegions "Europe" = ⟨-30, 30, 45, 75⟩ := rfl
  have hr : bboxRatio (satelliteRegions "Europe") ≤ 4 := by
    rw [he, bboxRatio_eval _ _ _ _ (by norm_num)]
    norm_num
  exact ⟨hr,
    (region_aspect_matches "MODIS_Terra_CorrectedReflectance_TrueColor" "2026-10-10"
      "Europe").1 hr⟩

/-! ### C2 — emergency squawk anomaly records -/

/-- C2 (code bug evaluated at the failing input): one aircraft
squawking 7700 yields exactly one anomaly record with the matching
label, but the record carries no `level`, `severity` or `message` key
at all — there is no CRITICAL severity on it, and the dispatch site
(`app.py` reads `a["level"]` and `a["message"]`) raises `KeyError`. -/
theorem emergency_anomaly_record_shape :
    (checkAviationAnomalies [acEmergency]).length = 1 ∧
    ∀ d ∈ checkAviationAnomalies [acEmergency],
      pyDictGet d "squawk" = some (.s "7700") ∧
      pyDictGet d "label" = some (.s "General Emergency") ∧
      pyDictGet d "level" = none ∧
      pyDictGet d "severity" = none ∧
      pyDictGet d "message" = none := by
  constructor
  · decide
  · decide

/-! ### C3 — the bounded alert log -/

/-- Taking from a reversed list is dropping from the front. -/
theorem take_reverse_eq {α : Type} (l : List α) (n : ℕ) :
    l.reverse.take n = (l.drop (l.length - n)).reverse := by
  calc l.reverse.take n = ((l.reverse.take n).reverse).reverse := by
        rw [List.reverse_reverse]
    _ = (l.reverse.reverse.drop (l.reverse.length - n)).reverse := by
        rw [List.reverse_take]
    _ = (l.drop (l.length - n)).reverse := by
        rw [List.reverse_reverse, List.length_reverse]

/-- The alert-log fold keeps exactly the most recent `MAX_LOG_SIZE`
records of everything appended. -/
theorem dispatch_foldl_drop (calls : List DispatchCall) :
    ∀ acc : List AlertRecord, acc.length ≤ MAX_LOG_SIZE →
      calls.foldl dispatchAlertLog acc =
        (acc ++ calls.map DispatchCall.record).drop
          (acc.length + calls.length - MAX_LOG_SIZE) := by
  induction calls with
  | nil =>
    intro acc hacc
    simp [Nat.sub_eq_zero_of_le hacc]
  | cons c cs ih =>
    intro acc hacc
    simp only [List.foldl_cons, List.map_cons, List.length_cons]
    by_cases hlen : acc.length + 1 ≤ MAX_LOG_SIZE
    · have hstep : dispatchAlertLog acc c = acc ++ [c.record] := by
        unfold dispatchAlertLog
        rw [if_neg]
        simp only [List.length_append, List.length_cons, List.length_nil, not_lt]
        omega
      rw [hstep, ih (acc ++ [c.record]) (by simpa using hlen)]
      rw [List.append_assoc, List.singleton_append]
      congr 1
      simp only [List.length_append, List.length_cons, List.length_nil]
      omega
    · have hstep : dispatchAlertLog acc c = (acc ++ [c.record]).drop 1 := by
        unfold dispatchAlertLog
        rw [if_pos]
        simp only [List.length_append, List.length_cons, List.length_nil]
        omega
      have hone : 1 ≤ (acc ++ [c.record]).length := by simp
      rw [hstep, ih ((acc ++ [c.record]).drop 1) (by simp [List.length_drop]; omega)]
      rw [← List.drop_append_of_le_length hone, List.drop_drop, List.append_assoc,
        List.singleton_append]
      congr 1
      simp only [List.length_drop, List.length_append, List.length_cons, List.length_nil]
      omega

/-- C3 (amended): after any sequence of dispatches the in-memory log
holds the `min(N, 100)` most recent records (the oldest dropped beyond
capacity), and for every *positive* limit `get_recent_alerts(limit)`
returns the stored records newest-first, at most `limit` of them.  (For
`limit = 0` the Python slice `log[-0:]` is the whole list, refuting the
unrestricted claim.) -/
theorem alert_log_bounded (calls : List DispatchCall) (limit : ℤ) (hlim : 1 ≤ limit) :
    (runDispatches calls).length = min calls.length MAX_LOG_SIZE ∧
    runDispatches calls =
      (calls.map DispatchCall.record).drop (calls.length - MAX_LOG_SIZE) ∧
    getRecentAlerts limit (runDispatches calls) =
      (runDispatches calls).reverse.take limit.toNat := by
  have hrun : runDispatches calls =
      (calls.map DispatchCall.record).drop (calls.length - MAX_LOG_SIZE) := by
    have h := dispatch_foldl_drop calls [] (by simp)
    simpa [runDispatches] using h
  refine ⟨?_, hrun, ?_⟩
  · rw [hrun]
    simp only [List.length_drop, List.length_map]
    omega
  · unfold getRecentAlerts pySliceFrom
    rw [if_neg (by omega), take_reverse_eq]
    simp only [neg_neg]

/-- C3 counterexample: with a single stored alert, `get_recent_alerts 0`
returns that alert — one record, more than the limit 0 — because the
Python slice `log[-0:]` is `log[0:]`, the whole list. -/
theorem c3_limit_zero_returns_all :
    (getRecentAlerts 0 (runDispatches [callA])).length = 1 ∧
    ¬ ((getRecentAlerts 0 (runDispatches [callA])).length ≤ 0) := by
  constructor
  · decide
  · decide

/-- C3 witness: `alert_log_bounded` on three dispatches with limit 2. -/
theorem alert_log_bounded_witness :
    (1 : ℤ) ≤ 2 ∧
    (runDispatches [callA, callB, callC]).length =
      min ([callA, callB, callC] : List DispatchCall).length MAX_LOG_SIZE ∧
    getRecentAlerts 2 (runDispatches [callA, callB, callC]) =
      (runDispatches [callA, callB, callC]).reverse.take (2 : ℤ).toNat :=
  ⟨by norm_num,
   (alert_log_bounded [callA, callB, callC] 2 (by norm_num)).1,
   (alert_log_bounded [callA, callB, callC] 2 (by norm_num)).2.2⟩

/-! ### C6 — MJPEG frame extraction -/

/-- A successful pattern match needs at least the pattern's length. -/
theorem bytesStartWith_length (l p : List Nat) (h : bytesStartWith l p = true) :
    p.length ≤ l.length := by
  induction p generalizing l with
  | nil => simp
  | cons x xs ih =>
    cases l with
    | nil => exact absurd h (by simp [bytesStartWith])
    | cons b bs =>
      simp only [bytesStartWith, Bool.and_eq_true] at h
      simpa [List.length_cons] using ih bs h.2

/-- What a successful `pyFindAux` search returns: the least match
position at or after the start index. -/
theorem pyFindAux_sound (buf pat : List Nat) :
    ∀ (fuel i j : Nat), pyFindAux buf pat i fuel = some j →
      i ≤ j ∧ bytesStartWith (buf.drop j) pat = true ∧
        ∀ k, i ≤ k → k < j → bytesStartWith (buf.drop k) pat = false := by
  intro fuel
  induction fuel with
  | zero =>
    intro i j h
    exact absurd h (by simp [pyFindAux])
  | succ n ih =>
    intro i j h
    simp only [pyFindAux] at h
    by_cases hs : bytesStartWith (buf.drop i) pat = true
    · rw [if_pos hs] at h
      injection h with h
      subst h
      exact ⟨le_refl i, hs, fun k hk1 hk2 => absurd hk1 (by omega)⟩
    · rw [if_neg hs] at h
      obtain ⟨h1, h2, h3⟩ := ih (i + 1) j h
      refine ⟨by omega, h2, fun k hk1 hk2 => ?_⟩
      by_cases hk : k = i
      · subst hk
        exact Bool.eq_false_iff.mpr (fun hc => hs hc)
      · exact h3 k (by omega) hk2

/-- `pyFindAux` succeeds when a match exists within the fuel window. -/
theorem pyFindAux_complete (buf pat : List Nat) :
    ∀ (fuel i j : Nat), i ≤ j → j < i + fuel →
      bytesStartWith (buf.drop j) pat = true →
      (pyFindAux buf pat i fuel).isSome := by
  intro fuel
  induction fuel with
  | zero =>
    intro i j h1 h2 _
    omega
  | succ n ih =>
    intro i j h1 h2 h3
    simp only [pyFindAux]
    by_cases hs : bytesStartWith (buf.drop i) pat = true
    · rw [if_pos hs]
      rfl
    · rw [if_neg hs]
      have hne : i ≠ j := fun he => hs (he ▸ h3)
      exact ih (i + 1) j (by omega) (by omega) h3

/-- `buffer.find(pat, start)` returns the least match at or after
`start`, whenever any match at or after `start` exists. -/
theorem pyFind_found (buf pat : List Nat) (start j : Nat) (hp : pat ≠ [])
    (hj : start ≤ j) (hm : bytesStartWith (buf.drop j) pat = true) :
    ∃ j0, pyFind buf pat start = some j0 ∧ start ≤ j0 ∧
      bytesStartWith (buf.drop j0) pat = true ∧
      ∀ k, start ≤ k → k < j0 → bytesStartWith (buf.drop k) pat = false := by
  have hp1 : 1 ≤ pat.length := List.length_pos.mpr hp
  have hjlen : j < buf.length := by
    have hlen := bytesStartWith_length _ _ hm
    rw [List.length_drop] at hlen
    omega
  have hsome := pyFindAux_complete buf pat (buf.length + 1 - start) start j hj (by omega) hm
  rcases ho : pyFindAux buf pat start (buf.length + 1 - start) with _ | j0
  · rw [ho] at hsome
    exact absurd hsome (by simp)
  · obtain ⟨h1, h2, h3⟩ := pyFindAux_sound buf pat _ start j0 ho
    exact ⟨j0, by simp [pyFind, ho], h1, h2, h3⟩

/-- The chunk loop raises once the byte ceiling is exceeded with no
complete frame in any accumulated prefix. -/
theorem mjpegLoop_error (chunks : List (List Nat)) :
    ∀ buffer : List Nat, buffer.length ≤ MJPEG_MAX_BYTES →
      (∀ n, extractFrame (buffer ++ (chunks.take n).flatten) = none) →
      MJPEG_MAX_BYTES < buffer.length + chunks.flatten.length →
      mjpegLoop chunks buffer buffer.length =
        .error "MJPEG frame exceeded 1MB limit" := by
  induction chunks with
  | nil =>
    intro buffer h1 h2 h3
    simp only [List.flatten_nil, List.length_nil] at h3
    omega
  | cons c cs ih =>
    intro buffer h1 h2 h3
    have hext : extractFrame (buffer ++ c) = none := by
      have h := h2 1
      simpa using h
    simp only [mjpegLoop, hext]
    by_cases hover : MJPEG_MAX_BYTES < buffer.length + c.length
    · rw [if_pos hover]
    · rw [if_neg hover]
      have heq : buffer.length + c.length = (buffer ++ c).length := by simp
      rw [heq]
      apply ih (buffer ++ c) (by simp only [List.length_append]; omega)
      · intro n
        have h := h2 (n + 1)
        simpa [List.append_assoc] using h
      · have hflat : (c :: cs).flatten.length = c.length + cs.flatten.length := by
          simp
        have hlen2 : (buffer ++ c).length = buffer.length + c.length := by simp
        omega

/-- C6: whenever the accumulated buffer contains a complete JPEG (an
`FF D8` marker followed at least two bytes later by `FF D9`), the
extraction step returns exactly the bytes from the *first* start marker
through the first end marker after it, inclusive; and if more than the
1 MB ceiling is read without any accumulated prefix containing a
complete frame, the frame grab raises instead of reading on. -/
theorem mjpeg_frame_extraction :
    (∀ (buffer : List Nat) (s e : Nat),
       bytesStartWith (buffer.drop s) [0xff, 0xd8] = true →
       s + 2 ≤ e →
       bytesStartWith (buffer.drop e) [0xff, 0xd9] = true →
       ∃ s0 e0,
         s0 ≤ s ∧ s0 + 2 ≤ e0 ∧
         bytesStartWith (buffer.drop s0) [0xff, 0xd8] = true ∧
         (∀ i, i < s0 → bytesStartWith (buffer.drop i) [0xff, 0xd8] = false) ∧
         bytesStartWith (buffer.drop e0) [0xff, 0xd9] = true ∧
         (∀ i, s0 + 2 ≤ i → i < e0 →
            bytesStartWith (buffer.drop i) [0xff, 0xd9] = false) ∧
         extractFrame buffer = some ((buffer.take (e0 + 2)).drop s0)) ∧
    (∀ chunks : List (List Nat),
       (∀ n, extractFrame ((chunks.take n).flatten) = none) →
       MJPEG_MAX_BYTES < chunks.flatten.length →
       fetchMjpegFrame chunks = .error "MJPEG frame exceeded 1MB limit") := by
  constructor
  · intro buffer s e hs hse he
    obtain ⟨s0, hfind1, _, hs0m, hs0min⟩ :=
      pyFind_found buffer [0xff, 0xd8] 0 s (by simp) (Nat.zero_le s) hs
    have hs0s : s0 ≤ s := by
      by_contra hlt
      have := hs0min s (Nat.zero_le s) (by omega)
      rw [hs] at this
      exact Bool.noConfusion this
    obtain ⟨e0, hfind2, he0ge, he0m, he0min⟩ :=
      pyFind_found buffer [0xff, 0xd9] (s0 + 2) e (by simp) (by omega) he
    refine ⟨s0, e0, hs0s, he0ge, hs0m, ?_, he0m, he0min, ?_⟩
    · intro i hi
      exact hs0min i (Nat.zero_le i) hi
    · unfold extractFrame
      simp only [hfind1, hfind2]
  · intro chunks hnone hlen
    have h := mjpegLoop_error chunks [] (by simp) (by simpa using hnone)
      (by simpa using hlen)
    simpa [fetchMjpegFrame] using h

/-- No JPEG start marker in an all-zero byte list. -/
theorem bytesStartWith_zero_none (m : Nat) :
    bytesStartWith (List.replicate m 0) [0xff, 0xd8] = false := by
  cases m with
  | zero => rfl
  | succ n => simp [List.replicate, bytesStartWith]

/-- A search over a buffer with no match anywhere returns nothing. -/
theorem pyFindAux_none (buf pat : List Nat)
    (h : ∀ i, bytesStartWith (buf.drop i) pat = false) :
    ∀ (fuel i : Nat), pyFindAux buf pat i fuel = none := by
  intro fuel
  induction fuel with
  | zero => intro i; rfl
  | succ n ih =>
    intro i
    simp only [pyFindAux, h i]
    simpa using ih (i + 1)

/-- No frame is ever extracted from an all-zero buffer. -/
theorem extractFrame_zeros (k : Nat) :
    extractFrame (List.replicate k 0) = none := by
  unfold extractFrame pyFind
  rw [pyFindAux_none]
  intro i
  rw [List.drop_replicate]
  exact bytesStartWith_zero_none _

/-- C6 witness: the extraction conjunct applied to the concrete buffer
`FF D8 07 FF D9`, and the ceiling conjunct applied to a single
1000001-byte all-zero chunk. -/
theorem mjpeg_frame_extraction_witness :
    bytesStartWith (([0xff, 0xd8, 0x07, 0xff, 0xd9] : List Nat).drop 0)
      [0xff, 0xd8] = true ∧
    (0 : Nat) + 2 ≤ 3 ∧
    bytesStartWith (([0xff, 0xd8, 0x07, 0xff, 0xd9] : List Nat).drop 3)
      [0xff, 0xd9] = true ∧
    (∃ s0 e0, s0 ≤ 0 ∧ s0 + 2 ≤ e0 ∧
      bytesStartWith (([0xff, 0xd8, 0x07, 0xff, 0xd9] : List Nat).drop s0)
        [0xff, 0xd8] = true ∧
      (∀ i, i < s0 →
        bytesStartWith (([0xff, 0xd8, 0x07, 0xff, 0xd9] : List Nat).drop i)
          [0xff, 0xd8] = false) ∧
      bytesStartWith (([0xff, 0xd8, 0x07, 0xff, 0xd9] : List Nat).drop e0)
        [0xff, 0xd9] = true ∧
      (∀ i, s0 + 2 ≤ i → i < e0 →
        bytesStartWith (([0xff, 0xd8, 0x07, 0xff, 0xd9] : List Nat).drop i)
          [0xff, 0xd9] = false) ∧
      extractFrame [0xff, 0xd8, 0x07, 0xff, 0xd9] =
        some ((([0xff, 0xd8, 0x07, 0xff, 0xd9] : List Nat).take (e0 + 2)).drop s0)) ∧
    fetchMjpegFrame [bigZeroChunk] =
      .error "MJPEG frame exceeded 1MB limit" := by
  refine ⟨by decide, by decide, by decide, ?_, ?_⟩
  · exact mjpeg_frame_extraction.1 [0xff, 0xd8, 0x07, 0xff, 0xd9] 0 3
      (by decide) (by decide) (by decide)
  · apply mjpeg_frame_extraction.2
    · intro n
      cases n with
      | zero => rfl
      | succ m =>
        have h : (([bigZeroChunk] : List (List Nat)).take (m + 1)).flatten =
            bigZeroChunk := by
          rw [List.take_succ_cons, List.take_nil, List.flatten_cons, List.flatten_nil,
            List.append_nil]
        rw [h]
        unfold bigZeroChunk
        exact extractFrame_zeros 1000001
    · have h : ([bigZeroChunk] : List (List Nat)).flatten = bigZeroChunk := by
        rw [List.flatten_cons, List.flatten_nil, List.append_nil]
      have h2 : bigZeroChunk.length = 1000001 := by
        unfold bigZeroChunk
        rw [List.length_replicate]
      rw [h, h2]
      norm_num [MJPEG_MAX_BYTES]

/-! ### C4 — detector passthrough on unavailability -/

/-- C4: whenever the detector never finished loading, lost its model, or
the inference block raises, `detect` returns normally (the embedding is
a total function: the `try`/`except` converts every exception into the
passthrough) with zero detections and `is_live = false`. -/
theorem detect_unavailable_passthrough (st : DetectorState) (ct vt : Nat)
    (infer : Except String (List Detection)) (td : TextDraw) (ems now : ℚ)
    (img : PILImage)
    (h : st.is_loaded = false ∨ st.modelLoaded = false ∨ ∃ e, infer = .error e) :
    (detect st ct vt infer td ems now img).1.detections = [] ∧
    (detect st ct vt infer td ems now img).1.is_live = false := by
  unfold detect
  by_cases hc : st.is_loaded = false ∨ st.modelLoaded = false
  · rw [if_pos hc]
    exact ⟨rfl, rfl⟩
  · rw [if_neg hc]
    rcases h with h1 | h1 | ⟨e, he⟩
    · exact absurd (Or.inl h1) hc
    · exact absurd (Or.inr h1) hc
    · rw [he]
      exact ⟨rfl, rfl⟩

/-- C4 witness: an unloaded detector on a concrete white frame. -/
theorem detect_unavailable_passthrough_witness :
    (⟨false, false⟩ : DetectorState).is_loaded = false ∧
    (detect ⟨false, false⟩ 10 6 (.ok []) idTextDraw 0 0 whiteImage).1.detections = [] ∧
    (detect ⟨false, false⟩ 10 6 (.ok []) idTextDraw 0 0 whiteImage).1.is_live = false :=
  ⟨rfl,
   (detect_unavailable_passthrough ⟨false, false⟩ 10 6 (.ok []) idTextDraw 0 0
      whiteImage (Or.inl rfl)).1,
   (detect_unavailable_passthrough ⟨false, false⟩ 10 6 (.ok []) idTextDraw 0 0
      whiteImage (Or.inl rfl)).2⟩

/-! ### C9 — what `detect` draws on -/

/-- C9 counterexample: with the detector unloaded, `detect` paints the
black status banner directly onto the caller's image — pixel (0, 10) of
an all-white 30 by 30 frame comes back black, so the "never mutates the
input" claim fails in the passthrough path. -/
theorem c9_passthrough_mutates_input :
    (detect ⟨false, false⟩ 10 6 (.ok []) idTextDraw 0 0 whiteImage).2.px 0 10 =
      (0, 0, 0) ∧
    whiteImage.px 0 10 = (255, 255, 255) ∧
    (detect ⟨false, false⟩ 10 6 (.ok []) idTextDraw 0 0 whiteImage).2.px 0 10 ≠
      whiteImage.px 0 10 := by
  refine ⟨by decide, rfl, by decide⟩

/-- C9 (amended): in the successful-inference path every box, label and
overlay is drawn on `image.copy()` and the caller's image is returned
untouched; in the passthrough path (detector unavailable or inference
raising) the status banner is drawn directly onto the caller's image,
which comes back mutated. -/
theorem detect_draws_on_copy :
    (∀ (st : DetectorState) (ct vt : Nat) (dets : List Detection) (td : TextDraw)
       (ems now : ℚ) (img : PILImage),
       st.is_loaded = true → st.modelLoaded = true →
       (detect st ct vt (.ok dets) td ems now img).2 = img) ∧
    (∀ (st : DetectorState) (ct vt : Nat) (infer : Except String (List Detection))
       (td : TextDraw) (ems now : ℚ) (img : PILImage),
       st.is_loaded = false ∨ st.modelLoaded = false ∨ (∃ e, infer = .error e) →
       (detect st ct vt infer td ems now img).2 =
         td (fillRect img 0 (img.height - 20) img.width img.height (0, 0, 0)) 4
           (img.height - 16)
           (if st.is_loaded = false then "YOLO not loaded" else "Detection disabled")
           (150, 150, 150)) := by
  constructor
  · intro st ct vt dets td ems now img h1 h2
    unfold detect
    rw [if_neg (by simp [h1, h2])]
  · intro st ct vt infer td ems now img h
    unfold detect
    by_cases hc : st.is_loaded = false ∨ st.modelLoaded = false
    · rw [if_pos hc]
      rfl
    · rw [if_neg hc]
      rcases h with h1 | h1 | ⟨e, he⟩
      · exact absurd (Or.inl h1) hc
      · exact absurd (Or.inr h1) hc
      · rw [he]
        rfl

/-- C9 witness: a loaded detector with a successful empty inference
leaves the concrete white frame untouched, and an unloaded one returns
exactly the banner-painted frame. -/
theorem detect_draws_on_copy_witness :
    (⟨true, true⟩ : DetectorState).is_loaded = true ∧
    (detect ⟨true, true⟩ 10 6 (.ok []) idTextDraw 0 0 whiteImage).2 = whiteImage ∧
    (detect ⟨false, false⟩ 10 6 (.ok []) idTextDraw 0 0 whiteImage).2 =
      idTextDraw
        (fillRect whiteImage 0 (whiteImage.height - 20) whiteImage.width
          whiteImage.height (0, 0, 0)) 4 (whiteImage.height - 16)
        (if (⟨false, false⟩ : DetectorState).is_loaded = false then "YOLO not loaded"
          else "Detection disabled") (150, 150, 150) :=
  ⟨rfl,
   detect_draws_on_copy.1 ⟨true, true⟩ 10 6 [] idTextDraw 0 0 whiteImage rfl rfl,
   detect_draws_on_copy.2 ⟨false, false⟩ 10 6 (.ok []) idTextDraw 0 0 whiteImage
     (Or.inl rfl)⟩

/-! ### C1 — all live providers fail ⇒ mock data, never "no data" -/

/-- The mock generator always returns exactly `count` aircraft. -/
theorem generateMock_length (count : Nat) (draws : Nat → MockDraw)
    (f : ℚ → ℚ → ℚ) (now : ℤ) :
    (generateMockAircraft count draws f now).length = count := by
  simp [generateMockAircraft]

/-- Every generated mock aircraft carries `is_mock = true`. -/
theorem generateMock_all_mock (count : Nat) (draws : Nat → MockDraw)
    (f : ℚ → ℚ → ℚ) (now : ℤ) :
    ∀ x ∈ generateMockAircraft count draws f now, x.is_mock = true := by
  intro x hx
  simp only [generateMockAircraft, List.mem_map] at hx
  obtain ⟨i, _, rfl⟩ := hx
  rfl

/-- C1: when the cache misses and every live provider request errors
(FR24 absent or erroring, OpenSky erroring, adsb.fi erroring), the
aviation fetch falls through to the synthetic generator, which always
succeeds: `fetch_aircraft` returns a non-empty list of at most 500
aircraft, all flagged `is_mock = true`, and reports `is_live = false` —
the pipeline never returns "no data". -/
theorem aviation_all_fail_mock (env : FetchEnv)
    (hc : env.cached = none)
    (hf : env.fr24Token = none ∨ ∃ e, env.fr24Resp = .error e)
    (ho : ∃ e, env.openskyResp = .error e)
    (ha : ∃ e, env.adsbResp = .error e) :
    (fetchAircraft env).1 ≠ [] ∧
    (fetchAircraft env).1.length ≤ 500 ∧
    (∀ a ∈ (fetchAircraft env).1, a.is_mock = true) ∧
    (fetchAircraft env).2 = false := by
  obtain ⟨eo, ho⟩ := ho
  obtain ⟨ea, ha⟩ := ha
  have hopen : fetchOpensky env =
      generateMockAircraft 500 env.mockDraws env.atan2deg env.nowTs := by
    unfold fetchOpensky
    rw [hc]
    by_cases hm : env.forceMock
    · rw [if_pos hm]
    · rw [if_neg hm, ho]
      have hfb : adsbFallbackResult (Except.error ea) = none := rfl
      rw [ha, hfb]
  have hget : getAircraft env =
      generateMockAircraft 500 env.mockDraws env.atan2deg env.nowTs := by
    unfold getAircraft
    rcases htok : env.fr24Token with _ | tok
    · exact hopen
    · have hfr : fetchFr24 env = [] := by
        unfold fetchFr24
        rw [htok]
        rcases hf with hf1 | ⟨ef, hf2⟩
        · exact absurd htok (by rw [hf1]; simp)
        · rw [hf2]
      rw [hfr, if_pos rfl]
      exact hopen
  have hlen : (generateMockAircraft 500 env.mockDraws env.atan2deg env.nowTs).length
      = 500 := generateMock_length 500 env.mockDraws env.atan2deg env.nowTs
  have htake : (generateMockAircraft 500 env.mockDraws env.atan2deg env.nowTs).take 500
      = generateMockAircraft 500 env.mockDraws env.atan2deg env.nowTs :=
    List.take_of_length_le (by rw [hlen])
  have hmap : ∀ a ∈ (fetchAircraft env).1, a.is_mock = true := by
    intro a hax
    unfold fetchAircraft at hax
    simp only [hget, htake, List.mem_map] at hax
    obtain ⟨d, hd, rfl⟩ := hax
    have hd2 := generateMock_all_mock 500 env.mockDraws env.atan2deg env.nowTs d hd
    simpa [Aircraft.ofDict] using hd2
  refine ⟨?_, ?_, hmap, ?_⟩
  · intro hnil
    have hl : (fetchAircraft env).1.length = 500 := by
      unfold fetchAircraft
      simp only [hget, htake, List.length_map]
      exact hlen
    rw [hnil] at hl
    simp at hl
  · unfold fetchAircraft
    simp only [hget, htake, List.length_map]
    omega
  · unfold fetchAircraft
    simp only [hget, htake]
    rw [List.any_eq_false]
    intro a ha
    have hm : a.is_mock = true := by
      apply hmap a
      unfold fetchAircraft
      simp only [hget, htake]
      exact ha
    simp [hm]

/-- C1 witness: `aviation_all_fail_mock` on the concrete all-failing
environment. -/
theorem aviation_all_fail_mock_witness :
    envAllFail.cached = none ∧
    (envAllFail.fr24Token = none ∨ ∃ e, envAllFail.fr24Resp = .error e) ∧
    (∃ e, envAllFail.openskyResp = .error e) ∧
    (∃ e, envAllFail.adsbResp = .error e) ∧
    ((fetchAircraft envAllFail).1 ≠ [] ∧
     (fetchAircraft envAllFail).1.length ≤ 500 ∧
     (∀ a ∈ (fetchAircraft envAllFail).1, a.is_mock = true) ∧
     (fetchAircraft envAllFail).2 = false) :=
  ⟨rfl, Or.inl rfl, ⟨"timeout", rfl⟩, ⟨"timeout", rfl⟩,
   aviation_all_fail_mock envAllFail rfl (Or.inl rfl) ⟨"timeout", rfl⟩
     ⟨"timeout", rfl⟩⟩

end AetherWatch

